import Mathlib

/-!
Verification development for the edge-ai-suites repository fragments.

Part 1 embeds the robotics image time-synchronizer
(`robotics-ai-suite/.../yolo/src/ImageSync.hpp`): two timestamped image
streams (color and depth) are paired within a tolerance window by a
resolution loop over two min-ordered priority queues backed by
counter-keyed image maps.
-/

/-- A ROS image message header reduced to its capture stamp
(seconds, nanoseconds), as used by the synchronizer. -/
structure Image where
  sec : Nat
  nanosec : Nat
deriving DecidableEq, Repr

/-- Nanosecond timestamp of a frame, computed in the source as
`msg->header.stamp.nanosec + msg->header.stamp.sec * 1e9`. -/
def stampNanoseconds (msg : Image) : Nat :=
  msg.nanosec + msg.sec * 1000000000

/-- Tolerance constant of the synchronizer: 1e9 times 0.01 nanoseconds,
i.e. 10 ms, from `acceptable_synchronization_error_nanoseconds`. -/
def acceptable_synchronization_error_nanoseconds : Nat := 10000000

/-- Absolute difference of two timestamps, the shallow embedding of
`std::abs(static_cast(a) - static_cast(b))` on in-range values. -/
def tdiff (a b : Nat) : Nat := if a < b then b - a else a - b

/-- Push onto a min-ordered priority queue of (timestamp, counter)
pairs, kept as a list sorted by timestamp ascending. -/
def qpush (x : Nat × Nat) : List (Nat × Nat) → List (Nat × Nat)
  | [] => [x]
  | y :: ys => if x.1 < y.1 then x :: y :: ys else y :: qpush x ys

/-- Erase a key from a counter-to-image association list
(`unordered_map::erase`). -/
def eraseKey (k : Nat) : List (Nat × Image) → List (Nat × Image)
  | [] => []
  | kv :: rest => if kv.1 = k then rest else kv :: eraseKey k rest

/-- Look up a key in a counter-to-image association list. -/
def lookupKey (k : Nat) : List (Nat × Image) → Option Image
  | [] => none
  | kv :: rest => if kv.1 = k then some kv.2 else lookupKey k rest

/-- Store a value under a key (`map[k] = v` overwrite semantics). -/
def mapSet (k : Nat) (v : Image) (m : List (Nat × Image)) : List (Nat × Image) :=
  (k, v) :: eraseKey k m

/-- State of the `ImageSync` class: shared sequence counter, the two
counter-keyed image maps, and the two timestamp-ordered queues. -/
structure ImageSync where
  counter : Nat
  rgb_map : List (Nat × Image)
  depth_map : List (Nat × Image)
  queue_rgb : List (Nat × Nat)
  queue_depth : List (Nat × Nat)
deriving DecidableEq, Repr

/-- The `resolve` loop, fuel-indexed so that it is structurally
recursive; each iteration either pairs the two queue heads (emitting
the callback arguments) or discards the older head. `ImageSync.resolve`
supplies sufficient fuel. -/
def resolveGo : Nat → Nat → List (Nat × Image) → List (Nat × Image) →
    List (Nat × Nat) → List (Nat × Nat) →
    ImageSync × List (Option Image × Option Image)
  | 0, cnt, rm, dm, qr, qd => (⟨cnt, rm, dm, qr, qd⟩, [])
  | _ + 1, cnt, rm, dm, [], qd => (⟨cnt, rm, dm, [], qd⟩, [])
  | _ + 1, cnt, rm, dm, qr, [] => (⟨cnt, rm, dm, qr, []⟩, [])
  | fuel + 1, cnt, rm, dm, (tr, cr) :: qr, (td, cd) :: qd =>
    if tdiff tr td < acceptable_synchronization_error_nanoseconds then
      let res := resolveGo fuel cnt (eraseKey cr rm) (eraseKey cd dm) qr qd
      (res.1, (lookupKey cr rm, lookupKey cd dm) :: res.2)
    else if tr < td then
      resolveGo fuel cnt (eraseKey cr rm) dm qr ((td, cd) :: qd)
    else
      resolveGo fuel cnt rm (eraseKey cd dm) ((tr, cr) :: qr) qd

/-- `ImageSync::resolve`: run the resolution loop to completion on the
current state, returning the new state and the list of (color, depth)
image pairs handed to the pairing callback, in emission order. -/
def ImageSync.resolve (s : ImageSync) : ImageSync × List (Option Image × Option Image) :=
  resolveGo (s.queue_rgb.length + s.queue_depth.length)
    s.counter s.rgb_map s.depth_map s.queue_rgb s.queue_depth

/-- The synchronizer's initial state. -/
def initSync : ImageSync := ⟨0, [], [], [], []⟩

/-- `ImageSync::callback_rgb`: store the image under the next counter,
push (timestamp, counter) onto the rgb queue, bump the counter, then
resolve. -/
def ImageSync.callback_rgb (s : ImageSync) (msg : Image) :
    ImageSync × List (Option Image × Option Image) :=
  let nanoseconds := stampNanoseconds msg
  ImageSync.resolve
    ⟨s.counter + 1, mapSet s.counter msg s.rgb_map, s.depth_map,
      qpush (nanoseconds, s.counter) s.queue_rgb, s.queue_depth⟩

/-- `ImageSync::callback_depth`: analogous ingest on the depth stream. -/
def ImageSync.callback_depth (s : ImageSync) (msg : Image) :
    ImageSync × List (Option Image × Option Image) :=
  let nanoseconds := stampNanoseconds msg
  ImageSync.resolve
    ⟨s.counter + 1, s.rgb_map, mapSet s.counter msg s.depth_map,
      s.queue_rgb, qpush (nanoseconds, s.counter) s.queue_depth⟩

/-- One ingest operation on the synchronizer. -/
inductive SyncOp where
  | rgb (msg : Image)
  | depth (msg : Image)
deriving DecidableEq, Repr

/-- Apply one ingest operation. -/
def syncStep (s : ImageSync) (op : SyncOp) : ImageSync × List (Option Image × Option Image) :=
  match op with
  | .rgb m => s.callback_rgb m
  | .depth m => s.callback_depth m

/-- Run a sequence of ingest operations from the initial state,
accumulating every callback invocation. -/
def runSync (ops : List SyncOp) : ImageSync × List (Option Image × Option Image) :=
  ops.foldl (fun acc op => ((syncStep acc.1 op).1, acc.2 ++ (syncStep acc.1 op).2))
    (initSync, [])

lemma resolveGo_fuel_eq :
    ∀ (f1 f2 cnt : Nat) (rm dm : List (Nat × Image)) (qr qd : List (Nat × Nat)),
      qr.length + qd.length ≤ f1 → qr.length + qd.length ≤ f2 →
      resolveGo f1 cnt rm dm qr qd = resolveGo f2 cnt rm dm qr qd := by
  intro f1
  induction f1 with
  | zero =>
    intro f2 cnt rm dm qr qd h1 h2
    have hqr : qr = [] := by
      cases qr with
      | nil => rfl
      | cons p t => simp at h1
    have hqd : qd = [] := by
      cases qd with
      | nil => rfl
      | cons p t => simp at h1
    subst hqr; subst hqd
    cases f2 with
    | zero => rfl
    | succ g => simp [resolveGo]
  | succ f ih =>
    intro f2 cnt rm dm qr qd h1 h2
    cases qr with
    | nil =>
      cases f2 with
      | zero =>
        have hqd : qd = [] := by
          cases qd with
          | nil => rfl
          | cons p t => simp at h2
        subst hqd; simp [resolveGo]
      | succ g => simp [resolveGo]
    | cons p qr' =>
      cases qd with
      | nil =>
        cases f2 with
        | zero => simp at h2
        | succ g => simp [resolveGo]
      | cons q qd' =>
        obtain ⟨tr, cr⟩ := p
        obtain ⟨td, cd⟩ := q
        cases f2 with
        | zero => simp at h2
        | succ g =>
          simp only [List.length_cons] at h1 h2
          by_cases hc : tdiff tr td < acceptable_synchronization_error_nanoseconds
          · have hrec := ih g cnt (eraseKey cr rm) (eraseKey cd dm) qr' qd'
              (by omega) (by omega)
            simp only [resolveGo, if_pos hc, hrec]
          · by_cases hlt : tr < td
            · have hrec := ih g cnt (eraseKey cr rm) dm qr' ((td, cd) :: qd')
                (by simp; omega) (by simp; omega)
              simp only [resolveGo, if_neg hc, if_pos hlt, hrec]
            · have hrec := ih g cnt rm (eraseKey cd dm) ((tr, cr) :: qr') qd'
                (by simp; omega) (by simp; omega)
              simp only [resolveGo, if_neg hc, if_neg hlt, hrec]

lemma resolve_cons_pair (cnt : Nat) (rm dm : List (Nat × Image))
    (tr cr td cd : Nat) (qr qd : List (Nat × Nat))
    (h : tdiff tr td < acceptable_synchronization_error_nanoseconds) :
    ImageSync.resolve ⟨cnt, rm, dm, (tr, cr) :: qr, (td, cd) :: qd⟩
      = ((ImageSync.resolve ⟨cnt, eraseKey cr rm, eraseKey cd dm, qr, qd⟩).1,
         (lookupKey cr rm, lookupKey cd dm) ::
           (ImageSync.resolve ⟨cnt, eraseKey cr rm, eraseKey cd dm, qr, qd⟩).2) := by
  show resolveGo (((tr, cr) :: qr).length + ((td, cd) :: qd).length)
      cnt rm dm ((tr, cr) :: qr) ((td, cd) :: qd) = _
  have hf : ((tr, cr) :: qr).length + ((td, cd) :: qd).length
      = (qr.length + qd.length + 1) + 1 := by simp; omega
  rw [hf]
  simp only [resolveGo, if_pos h]
  have := resolveGo_fuel_eq (qr.length + qd.length + 1) (qr.length + qd.length)
    cnt (eraseKey cr rm) (eraseKey cd dm) qr qd (by omega) (by omega)
  rw [this]
  rfl

lemma resolve_drop_rgb (cnt : Nat) (rm dm : List (Nat × Image))
    (tr cr td cd : Nat) (qr qd : List (Nat × Nat))
    (h : ¬ tdiff tr td < acceptable_synchronization_error_nanoseconds)
    (hlt : tr < td) :
    ImageSync.resolve ⟨cnt, rm, dm, (tr, cr) :: qr, (td, cd) :: qd⟩
      = ImageSync.resolve ⟨cnt, eraseKey cr rm, dm, qr, (td, cd) :: qd⟩ := by
  show resolveGo (((tr, cr) :: qr).length + ((td, cd) :: qd).length)
      cnt rm dm ((tr, cr) :: qr) ((td, cd) :: qd) = _
  have hf : ((tr, cr) :: qr).length + ((td, cd) :: qd).length
      = (qr.length + (qd.length + 1)) + 1 := by simp; omega
  rw [hf]
  simp only [resolveGo, if_neg h, if_pos hlt]
  exact resolveGo_fuel_eq (qr.length + (qd.length + 1))
    (qr.length + ((td, cd) :: qd).length) cnt (eraseKey cr rm) dm qr ((td, cd) :: qd)
    (by simp) (by simp)

lemma resolve_drop_depth (cnt : Nat) (rm dm : List (Nat × Image))
    (tr cr td cd : Nat) (qr qd : List (Nat × Nat))
    (h : ¬ tdiff tr td < acceptable_synchronization_error_nanoseconds)
    (hge : ¬ tr < td) :
    ImageSync.resolve ⟨cnt, rm, dm, (tr, cr) :: qr, (td, cd) :: qd⟩
      = ImageSync.resolve ⟨cnt, rm, eraseKey cd dm, (tr, cr) :: qr, qd⟩ := by
  show resolveGo (((tr, cr) :: qr).length + ((td, cd) :: qd).length)
      cnt rm dm ((tr, cr) :: qr) ((td, cd) :: qd) = _
  have hf : ((tr, cr) :: qr).length + ((td, cd) :: qd).length
      = ((qr.length + 1) + qd.length) + 1 := by simp; omega
  rw [hf]
  simp only [resolveGo, if_neg h, if_neg hge]
  exact resolveGo_fuel_eq ((qr.length + 1) + qd.length)
    (((tr, cr) :: qr).length + qd.length) cnt rm (eraseKey cd dm) ((tr, cr) :: qr) qd
    (by simp) (by simp)

/-- C1: for the image time-synchronizer, whenever both priority queues
are non-empty, if the head timestamps differ by 5 ms (5e6 ns) the
resolution loop pops both heads, invokes the pairing callback with the
two stored images and erases both from their maps; if they differ by
15 ms (1.5e7 ns) no callback is invoked for that pair and the head with
the older timestamp is erased from its map and popped from its queue,
after which evaluation continues on the remaining state. -/
theorem c1_pair_at_5ms_drop_at_15ms (s : ImageSync) (tr cr td cd : Nat)
    (qr qd : List (Nat × Nat))
    (hr : s.queue_rgb = (tr, cr) :: qr) (hd : s.queue_depth = (td, cd) :: qd) :
    (tdiff tr td = 5000000 →
      s.resolve
        = ((ImageSync.resolve
              ⟨s.counter, eraseKey cr s.rgb_map, eraseKey cd s.depth_map, qr, qd⟩).1,
           (lookupKey cr s.rgb_map, lookupKey cd s.depth_map) ::
             (ImageSync.resolve
               ⟨s.counter, eraseKey cr s.rgb_map, eraseKey cd s.depth_map, qr, qd⟩).2))
    ∧ (tdiff tr td = 15000000 → tr < td →
      s.resolve
        = ImageSync.resolve
            ⟨s.counter, eraseKey cr s.rgb_map, s.depth_map, qr, (td, cd) :: qd⟩)
    ∧ (tdiff tr td = 15000000 → td < tr →
      s.resolve
        = ImageSync.resolve
            ⟨s.counter, s.rgb_map, eraseKey cd s.depth_map, (tr, cr) :: qr, qd⟩) := by
  obtain ⟨cnt, rm, dm, q1, q2⟩ := s
  simp only at hr hd
  subst hr; subst hd
  refine ⟨?_, ?_, ?_⟩
  · intro h
    exact resolve_cons_pair cnt rm dm tr cr td cd qr qd
      (by rw [h]; norm_num [acceptable_synchronization_error_nanoseconds])
  · intro h hlt
    exact resolve_drop_rgb cnt rm dm tr cr td cd qr qd
      (by rw [h]; norm_num [acceptable_synchronization_error_nanoseconds]) hlt
  · intro h hgt
    exact resolve_drop_depth cnt rm dm tr cr td cd qr qd
      (by rw [h]; norm_num [acceptable_synchronization_error_nanoseconds])
      (by omega)

theorem c1_pair_at_5ms_drop_at_15ms_witness :
    ImageSync.resolve ⟨2, [(0, ⟨0, 0⟩)], [(1, ⟨0, 5000000⟩)], [(0, 0)], [(5000000, 1)]⟩
      = (⟨2, [], [], [], []⟩, [(some ⟨0, 0⟩, some ⟨0, 5000000⟩)]) := by
  have h := (c1_pair_at_5ms_drop_at_15ms
      ⟨2, [(0, ⟨0, 0⟩)], [(1, ⟨0, 5000000⟩)], [(0, 0)], [(5000000, 1)]⟩
      0 0 5000000 1 [] [] rfl rfl).1 (by decide)
  rw [h]
  decide

/-- C2 counterexample: a color frame at 0 ns and a depth frame at exactly
1e7 ns (the tolerance) are NOT synchronized into a pair by the code: no
callback fires and the older (color) frame is erased and popped, because
the comparison in `resolve` is strict. -/
theorem c2_exact_tolerance_counterexample :
    (runSync [SyncOp.rgb ⟨0, 0⟩, SyncOp.depth ⟨0, 10000000⟩]).2 = []
    ∧ (runSync [SyncOp.rgb ⟨0, 0⟩, SyncOp.depth ⟨0, 10000000⟩]).1.rgb_map = []
    ∧ (runSync [SyncOp.rgb ⟨0, 0⟩, SyncOp.depth ⟨0, 10000000⟩]).1.queue_rgb = []
    ∧ stampNanoseconds ⟨0, 10000000⟩ - stampNanoseconds ⟨0, 0⟩
        = acceptable_synchronization_error_nanoseconds := by
  decide

/-- C2 amended: pairing requires the head timestamps to differ strictly
less than the tolerance (1e7 ns); at a difference of exactly the
tolerance no pair is produced and the older head is discarded instead. -/
theorem c2_strict_tolerance_boundary (s : ImageSync) (tr cr td cd : Nat)
    (qr qd : List (Nat × Nat))
    (hr : s.queue_rgb = (tr, cr) :: qr) (hd : s.queue_depth = (td, cd) :: qd) :
    (tdiff tr td < acceptable_synchronization_error_nanoseconds →
      s.resolve
        = ((ImageSync.resolve
              ⟨s.counter, eraseKey cr s.rgb_map, eraseKey cd s.depth_map, qr, qd⟩).1,
           (lookupKey cr s.rgb_map, lookupKey cd s.depth_map) ::
             (ImageSync.resolve
               ⟨s.counter, eraseKey cr s.rgb_map, eraseKey cd s.depth_map, qr, qd⟩).2))
    ∧ (tdiff tr td = acceptable_synchronization_error_nanoseconds → tr < td →
      s.resolve
        = ImageSync.resolve
            ⟨s.counter, eraseKey cr s.rgb_map, s.depth_map, qr, (td, cd) :: qd⟩)
    ∧ (tdiff tr td = acceptable_synchronization_error_nanoseconds → td < tr →
      s.resolve
        = ImageSync.resolve
            ⟨s.counter, s.rgb_map, eraseKey cd s.depth_map, (tr, cr) :: qr, qd⟩) := by
  obtain ⟨cnt, rm, dm, q1, q2⟩ := s
  simp only at hr hd
  subst hr; subst hd
  refine ⟨?_, ?_, ?_⟩
  · intro h
    exact resolve_cons_pair cnt rm dm tr cr td cd qr qd h
  · intro h hlt
    exact resolve_drop_rgb cnt rm dm tr cr td cd qr qd (by omega) hlt
  · intro h hgt
    exact resolve_drop_depth cnt rm dm tr cr td cd qr qd (by omega) (by omega)

theorem c2_strict_tolerance_boundary_witness :
    ImageSync.resolve ⟨2, [(0, ⟨0, 0⟩)], [(1, ⟨0, 10000000⟩)], [(0, 0)], [(10000000, 1)]⟩
      = ImageSync.resolve ⟨2, [], [(1, ⟨0, 10000000⟩)], [], [(10000000, 1)]⟩ := by
  have h := (c2_strict_tolerance_boundary
      ⟨2, [(0, ⟨0, 0⟩)], [(1, ⟨0, 10000000⟩)], [(0, 0)], [(10000000, 1)]⟩
      0 0 10000000 1 [] [] rfl rfl).2.1 (by decide) (by decide)
  exact h

lemma eraseKey_map_fst (k : Nat) (m : List (Nat × Image)) :
    (eraseKey k m).map Prod.fst = (m.map Prod.fst).erase k := by
  induction m with
  | nil => rfl
  | cons kv t ih =>
    by_cases h : kv.1 = k
    · simp [eraseKey, h, List.erase_cons]
    · simp [eraseKey, h, List.erase_cons, ih]

lemma eraseKey_eq_self (k : Nat) (m : List (Nat × Image))
    (h : k ∉ m.map Prod.fst) : eraseKey k m = m := by
  induction m with
  | nil => rfl
  | cons kv t ih =>
    simp only [List.map_cons, List.mem_cons, not_or] at h
    have hk : ¬ kv.1 = k := fun hh => h.1 hh.symm
    simp [eraseKey, hk, ih h.2]

lemma qpush_map_snd_perm (x : Nat × Nat) (q : List (Nat × Nat)) :
    ((qpush x q).map Prod.snd).Perm (x.2 :: q.map Prod.snd) := by
  induction q with
  | nil => simp [qpush]
  | cons y ys ih =>
    by_cases h : x.1 < y.1
    · simp [qpush, h]
    · simp only [qpush, if_neg h, List.map_cons]
      exact (ih.cons y.2).trans (List.Perm.swap x.2 y.2 (ys.map Prod.snd))

/-- Internal consistency of a synchronizer state: each queue's set of
sequence counters matches its map's key set (as a permutation) and all
counters are below the shared counter. -/
def SyncInv (s : ImageSync) : Prop :=
  (s.queue_rgb.map Prod.snd).Perm (s.rgb_map.map Prod.fst)
  ∧ (∀ c ∈ s.queue_rgb.map Prod.snd, c < s.counter)
  ∧ (s.queue_depth.map Prod.snd).Perm (s.depth_map.map Prod.fst)
  ∧ (∀ c ∈ s.queue_depth.map Prod.snd, c < s.counter)

lemma resolveGo_inv : ∀ (f cnt : Nat) (rm dm : List (Nat × Image))
    (qr qd : List (Nat × Nat)),
    SyncInv ⟨cnt, rm, dm, qr, qd⟩ → SyncInv (resolveGo f cnt rm dm qr qd).1 := by
  intro f
  induction f with
  | zero => intro cnt rm dm qr qd h; simpa [resolveGo] using h
  | succ f ih =>
    intro cnt rm dm qr qd h
    cases qr with
    | nil => simpa [resolveGo] using h
    | cons p qr' =>
      cases qd with
      | nil => simpa [resolveGo] using h
      | cons q qd' =>
        obtain ⟨tr, cr⟩ := p
        obtain ⟨td, cd⟩ := q
        obtain ⟨hp1, hb1, hp2, hb2⟩ := h
        simp only [List.map_cons] at hp1 hb1 hp2 hb2
        by_cases hc : tdiff tr td < acceptable_synchronization_error_nanoseconds
        · have h1 := (List.cons_perm_iff_perm_erase.mp hp1).2
          have h2 := (List.cons_perm_iff_perm_erase.mp hp2).2
          simp only [resolveGo, if_pos hc]
          apply ih
          refine ⟨?_, ?_, ?_, ?_⟩
          · rw [eraseKey_map_fst]; exact h1
          · intro c hcmem; exact hb1 c (List.mem_cons_of_mem _ hcmem)
          · rw [eraseKey_map_fst]; exact h2
          · intro c hcmem; exact hb2 c (List.mem_cons_of_mem _ hcmem)
        · by_cases hlt : tr < td
          · have h1 := (List.cons_perm_iff_perm_erase.mp hp1).2
            simp only [resolveGo, if_neg hc, if_pos hlt]
            apply ih
            refine ⟨?_, ?_, ?_, ?_⟩
            · rw [eraseKey_map_fst]; exact h1
            · intro c hcmem; exact hb1 c (List.mem_cons_of_mem _ hcmem)
            · simpa using hp2
            · simpa using hb2
          · have h2 := (List.cons_perm_iff_perm_erase.mp hp2).2
            simp only [resolveGo, if_neg hc, if_neg hlt]
            apply ih
            refine ⟨?_, ?_, ?_, ?_⟩
            · simpa using hp1
            · simpa using hb1
            · rw [eraseKey_map_fst]; exact h2
            · intro c hcmem; exact hb2 c (List.mem_cons_of_mem _ hcmem)

lemma syncStep_inv (s : ImageSync) (op : SyncOp) (h : SyncInv s) :
    SyncInv (syncStep s op).1 := by
  obtain ⟨cnt, rm, dm, q1, q2⟩ := s
  obtain ⟨hp1, hb1, hp2, hb2⟩ := h
  simp only at hp1 hb1 hp2 hb2
  cases op with
  | rgb msg =>
    have hnot : cnt ∉ rm.map Prod.fst := fun hmem =>
      absurd (hb1 cnt (hp1.symm.subset hmem)) (by omega)
    have hgoal : SyncInv ⟨cnt + 1, mapSet cnt msg rm, dm,
        qpush (stampNanoseconds msg, cnt) q1, q2⟩ := by
      refine ⟨?_, ?_, ?_, ?_⟩ <;> dsimp only
      · have hmf : (mapSet cnt msg rm).map Prod.fst = cnt :: rm.map Prod.fst := by
          simp [mapSet, eraseKey_eq_self cnt rm hnot]
        rw [hmf]
        exact (qpush_map_snd_perm (stampNanoseconds msg, cnt) q1).trans (hp1.cons cnt)
      · intro c hcmem
        have hc := (qpush_map_snd_perm (stampNanoseconds msg, cnt) q1).subset hcmem
        rcases List.mem_cons.mp hc with h1 | h1
        · omega
        · exact Nat.lt_succ_of_lt (hb1 c h1)
      · exact hp2
      · intro c hcmem; exact Nat.lt_succ_of_lt (hb2 c hcmem)
    exact resolveGo_inv _ _ _ _ _ _ hgoal
  | depth msg =>
    have hnot : cnt ∉ dm.map Prod.fst := fun hmem =>
      absurd (hb2 cnt (hp2.symm.subset hmem)) (by omega)
    have hgoal : SyncInv ⟨cnt + 1, rm, mapSet cnt msg dm,
        q1, qpush (stampNanoseconds msg, cnt) q2⟩ := by
      refine ⟨?_, ?_, ?_, ?_⟩ <;> dsimp only
      · exact hp1
      · intro c hcmem; exact Nat.lt_succ_of_lt (hb1 c hcmem)
      · have hmf : (mapSet cnt msg dm).map Prod.fst = cnt :: dm.map Prod.fst := by
          simp [mapSet, eraseKey_eq_self cnt dm hnot]
        rw [hmf]
        exact (qpush_map_snd_perm (stampNanoseconds msg, cnt) q2).trans (hp2.cons cnt)
      · intro c hcmem
        have hc := (qpush_map_snd_perm (stampNanoseconds msg, cnt) q2).subset hcmem
        rcases List.mem_cons.mp hc with h1 | h1
        · omega
        · exact Nat.lt_succ_of_lt (hb2 c h1)
    exact resolveGo_inv _ _ _ _ _ _ hgoal

lemma runSync_inv (ops : List SyncOp) : SyncInv (runSync ops).1 := by
  suffices h : ∀ (acc : ImageSync × List (Option Image × Option Image)),
      SyncInv acc.1 →
      SyncInv (ops.foldl
        (fun acc op => ((syncStep acc.1 op).1, acc.2 ++ (syncStep acc.1 op).2)) acc).1 by
    exact h (initSync, []) (by refine ⟨?_, ?_, ?_, ?_⟩ <;> simp [initSync])
  induction ops with
  | nil => intro acc h; exact h
  | cons op rest ih => intro acc h; exact ih _ (syncStep_inv acc.1 op h)

/-- C10: after any sequence of ingest operations, for each stream the
set of sequence counters present in its priority queue equals the key
set of its image map, and every such counter is strictly below the
shared sequence counter — no stored image is orphaned and no queue
entry refers to an erased image. -/
theorem c10_queue_map_key_invariant (ops : List SyncOp) :
    (∀ c, c ∈ (runSync ops).1.queue_rgb.map Prod.snd
        ↔ c ∈ (runSync ops).1.rgb_map.map Prod.fst)
    ∧ (∀ c ∈ (runSync ops).1.queue_rgb.map Prod.snd, c < (runSync ops).1.counter)
    ∧ (∀ c, c ∈ (runSync ops).1.queue_depth.map Prod.snd
        ↔ c ∈ (runSync ops).1.depth_map.map Prod.fst)
    ∧ (∀ c ∈ (runSync ops).1.queue_depth.map Prod.snd, c < (runSync ops).1.counter) := by
  obtain ⟨hp1, hb1, hp2, hb2⟩ := runSync_inv ops
  exact ⟨fun c => hp1.mem_iff, hb1, fun c => hp2.mem_iff, hb2⟩

/-!
Part 2 embeds the smart-classroom session UI
(`education-ai-suite/smart-classroom/ui/src`): the Redux `uiSlice`
state record and reducers, the Header recording toggle stop path, the
recording-disabled derivation, and the upload-modal apply flow.
-/

/-- Audio sub-state of the session (`AudioStatus` in the ui slice). -/
inductive AudioStatus where
  | idle | checking | ready | recording | processing | transcribing
  | summarizing | mindmapping | complete | error | noDevices
deriving DecidableEq, Repr

/-- Video sub-state of the session (`VideoStatus` in the ui slice). -/
inductive VideoStatus where
  | idle | ready | starting | streaming | stopping | failed | complete | noConfig
deriving DecidableEq, Repr

/-- Processing mode (`ProcessingMode`); the slice stores it nullable. -/
inductive ProcessingMode where
  | audio | videoOnly | microphone
deriving DecidableEq, Repr

/-- Active stream selector; the slice stores it nullable. -/
inductive ActiveStream where
  | front | back | content | all
deriving DecidableEq, Repr

/-- Dashboard tab selector (`Tab`). -/
inductive UITab where
  | transcripts | summary | mindmap
deriving DecidableEq, Repr

/-- The `UIState` record of the classroom ui slice. -/
structure UIState where
  aiProcessing : Bool
  summaryEnabled : Bool
  summaryLoading : Bool
  mindmapEnabled : Bool
  mindmapLoading : Bool
  activeTab : UITab
  autoSwitched : Bool
  autoSwitchedToMindmap : Bool
  sessionId : Option String
  videoSessionId : Option String
  uploadedAudioPath : Option String
  shouldStartSummary : Bool
  shouldStartMindmap : Bool
  projectLocation : String
  frontCamera : String
  backCamera : String
  boardCamera : String
  frontCameraStream : String
  backCameraStream : String
  boardCameraStream : String
  activeStream : Option ActiveStream
  videoAnalyticsLoading : Bool
  videoAnalyticsActive : Bool
  processingMode : Option ProcessingMode
  audioStatus : AudioStatus
  videoStatus : VideoStatus
  hasAudioDevices : Bool
  audioDevicesLoading : Bool
  isRecording : Bool
  justStoppedRecording : Bool
  videoAnalyticsStopping : Bool
  hasUploadedVideoFiles : Bool
deriving DecidableEq, Repr

/-- The slice's `initialState`. -/
def initialState : UIState where
  aiProcessing := false
  summaryEnabled := false
  summaryLoading := false
  mindmapEnabled := false
  mindmapLoading := false
  activeTab := .transcripts
  autoSwitched := false
  autoSwitchedToMindmap := false
  sessionId := none
  videoSessionId := none
  uploadedAudioPath := none
  shouldStartSummary := false
  shouldStartMindmap := false
  projectLocation := "storage/"
  frontCamera := ""
  backCamera := ""
  boardCamera := ""
  frontCameraStream := ""
  backCameraStream := ""
  boardCameraStream := ""
  activeStream := none
  videoAnalyticsLoading := false
  videoAnalyticsActive := false
  processingMode := none
  audioStatus := .idle
  videoStatus := .idle
  hasAudioDevices := true
  audioDevicesLoading := false
  isRecording := false
  justStoppedRecording := false
  videoAnalyticsStopping := false
  hasUploadedVideoFiles := false

/-- Shallow embedding of the JavaScript string `trim()` used by the UI:
drop leading and trailing whitespace, via the character list so that it
is kernel-computable. -/
def jsTrim (s : String) : String :=
  ⟨((s.data.dropWhile Char.isWhitespace).reverse.dropWhile Char.isWhitespace).reverse⟩

/-- Reducer `startProcessing`. -/
def startProcessing (s : UIState) : UIState :=
  { s with
    aiProcessing := true
    summaryEnabled := false
    summaryLoading := false
    mindmapEnabled := false
    mindmapLoading := false
    activeTab := .transcripts
    autoSwitched := false
    autoSwitchedToMindmap := false
    sessionId := none
    uploadedAudioPath := none
    shouldStartSummary := false
    shouldStartMindmap := false
    videoAnalyticsLoading := false
    videoAnalyticsActive := false }

/-- Reducer `processingFailed`. -/
def processingFailed (s : UIState) : UIState :=
  { s with
    aiProcessing := false
    summaryLoading := false
    mindmapLoading := false
    videoAnalyticsLoading := false
    videoAnalyticsActive := false
    processingMode := none
    audioStatus := .error
    videoStatus := .failed
    isRecording := false
    videoAnalyticsStopping := false }

/-- Reducer `setUploadedAudioPath`: the MICROPHONE sentinel marks audio
as recording, any other non-empty path marks it processing. -/
def setUploadedAudioPath (p : String) (s : UIState) : UIState :=
  let s1 := { s with uploadedAudioPath := some p }
  if p = "MICROPHONE" then { s1 with audioStatus := .recording }
  else if p ≠ "" then { s1 with audioStatus := .processing }
  else s1

/-- Reducer `setSessionId`: only non-blank ids are stored. -/
def setSessionId (v : Option String) (s : UIState) : UIState :=
  match v with
  | some str => if 0 < (jsTrim str).length then { s with sessionId := some str } else s
  | none => s

/-- Reducer `setActiveStream`. -/
def setActiveStream (v : Option ActiveStream) (s : UIState) : UIState :=
  { s with activeStream := v }

/-- Reducer `setFrontCameraStream`. -/
def setFrontCameraStream (v : String) (s : UIState) : UIState :=
  { s with frontCameraStream := v }

/-- Reducer `setBackCameraStream`. -/
def setBackCameraStream (v : String) (s : UIState) : UIState :=
  { s with backCameraStream := v }

/-- Reducer `setBoardCameraStream`. -/
def setBoardCameraStream (v : String) (s : UIState) : UIState :=
  { s with boardCameraStream := v }

/-- Reducer `startStream`. -/
def startStream (s : UIState) : UIState :=
  { s with activeStream := some .all, videoStatus := .streaming }

/-- Reducer `transcriptionComplete`: enables the summary stage and
auto-switches to the summary tab once. -/
def transcriptionComplete (s : UIState) : UIState :=
  let s1 := { s with
    summaryEnabled := true
    summaryLoading := true
    shouldStartSummary := true
    audioStatus := .summarizing }
  if ¬ s1.autoSwitched then { s1 with activeTab := .summary, autoSwitched := true }
  else s1

/-- Reducer `setVideoAnalyticsLoading`. -/
def setVideoAnalyticsLoading (b : Bool) (s : UIState) : UIState :=
  let s1 := { s with videoAnalyticsLoading := b }
  if b then { s1 with videoStatus := .starting } else s1

/-- Reducer `setVideoAnalyticsActive`: deactivation resets the video
status to ready when no load is in flight. -/
def setVideoAnalyticsActive (b : Bool) (s : UIState) : UIState :=
  let s1 := { s with videoAnalyticsActive := b }
  if b then { s1 with videoStatus := .streaming, videoAnalyticsLoading := false }
  else if ¬ s1.videoAnalyticsLoading then { s1 with videoStatus := .ready }
  else s1

/-- Reducer `setProcessingMode`. -/
def setProcessingMode (m : Option ProcessingMode) (s : UIState) : UIState :=
  { s with processingMode := m }

/-- Reducer `setAudioStatus`. -/
def setAudioStatus (a : AudioStatus) (s : UIState) : UIState :=
  { s with audioStatus := a }

/-- Reducer `setVideoStatus`. -/
def setVideoStatus (v : VideoStatus) (s : UIState) : UIState :=
  { s with videoStatus := v }

/-- Reducer `setHasAudioDevices`. -/
def setHasAudioDevices (b : Bool) (s : UIState) : UIState :=
  { s with hasAudioDevices := b, audioStatus := if b then .ready else .noDevices }

/-- Reducer `setAudioDevicesLoading`. -/
def setAudioDevicesLoading (b : Bool) (s : UIState) : UIState :=
  let s1 := { s with audioDevicesLoading := b }
  if b then { s1 with audioStatus := .checking } else s1

/-- Reducer `setIsRecording`. -/
def setIsRecording (b : Bool) (s : UIState) : UIState :=
  if b then
    let s1 := { s with isRecording := true, justStoppedRecording := false }
    let s2 := if s1.hasAudioDevices then { s1 with audioStatus := .recording } else s1
    if s2.videoStatus = .ready then { s2 with videoStatus := .starting } else s2
  else { s with isRecording := false, justStoppedRecording := true }

/-- Reducer `setJustStoppedRecording`. -/
def setJustStoppedRecording (b : Bool) (s : UIState) : UIState :=
  { s with justStoppedRecording := b }

/-- Reducer `setVideoAnalyticsStopping`. -/
def setVideoAnalyticsStopping (b : Bool) (s : UIState) : UIState :=
  let s1 := { s with videoAnalyticsStopping := b }
  if b then { s1 with videoStatus := .stopping } else s1

/-- Reducer `startTranscription`. -/
def startTranscription (s : UIState) : UIState :=
  { s with audioStatus := .transcribing }

/-- Reducer `setHasUploadedVideoFiles`. -/
def setHasUploadedVideoFiles (b : Bool) (s : UIState) : UIState :=
  let s1 := { s with hasUploadedVideoFiles := b }
  if b ∧ s1.videoStatus = .noConfig then { s1 with videoStatus := .ready } else s1

/-- Reducer `resetFlow`: reset to the initial state while preserving
the device/camera configuration, then re-derive the audio and video
statuses from the preserved configuration. -/
def resetFlow (s : UIState) : UIState :=
  let base := { initialState with
    hasAudioDevices := s.hasAudioDevices
    audioDevicesLoading := s.audioDevicesLoading
    frontCamera := s.frontCamera
    backCamera := s.backCamera
    boardCamera := s.boardCamera }
  { base with
    audioStatus :=
      if s.audioDevicesLoading then .checking
      else if s.hasAudioDevices then .ready
      else .noDevices
    videoStatus :=
      if jsTrim s.frontCamera ≠ "" ∨ jsTrim s.backCamera ≠ "" ∨ jsTrim s.boardCamera ≠ ""
      then .ready else .noConfig }

/-- Header derivation `hasVideoCapability`: camera settings present or
video files uploaded. -/
def hasVideoCapability (s : UIState) : Bool :=
  (jsTrim s.frontCamera != "" || jsTrim s.backCamera != "" || jsTrim s.boardCamera != "")
    || s.hasUploadedVideoFiles

/-- Outer catch of the recording-stop path in `handleRecordingToggle`:
reached when stopping the microphone throws. -/
def stopOuterCatch (hasDevices hasVideoCap : Bool) (s : UIState) : UIState :=
  setUploadedAudioPath ""
    (setProcessingMode none
      (setVideoStatus (if hasVideoCap then .ready else .noConfig)
        (setAudioStatus (if hasDevices then .ready else .noDevices)
          (setVideoAnalyticsStopping false s))))

/-- Video portion of the recording-stop path: stop active analytics
(tolerating failure), or mark no-config / clear streams. -/
def stopVideoSection (videoOk hasVideoCap : Bool) (sessionId : Option String)
    (videoActive : Bool) (s : UIState) : UIState :=
  if (videoActive && hasVideoCap) && sessionId.isSome then
    let s1 := setVideoAnalyticsStopping true s
    if videoOk then
      let s2 := setVideoStatus (if hasVideoCap then .ready else .noConfig)
        (setVideoAnalyticsActive false
          (setActiveStream none
            (setBoardCameraStream ""
              (setBackCameraStream ""
                (setFrontCameraStream "" s1)))))
      setVideoAnalyticsStopping false s2
    else
      setVideoAnalyticsStopping false (setVideoStatus .failed s1)
  else if !hasVideoCap then
    setVideoStatus .noConfig s
  else
    setVideoAnalyticsActive false
      (setActiveStream none
        (setBoardCameraStream ""
          (setBackCameraStream ""
            (setFrontCameraStream ""
              (setVideoStatus (if hasVideoCap then .ready else .noConfig) s)))))

/-- Tail of the recording-stop path: conditional processing-mode reset
and microphone-sentinel clearing. -/
def stopModeSection (wasRecordingAudio hasDevices : Bool)
    (uploadedAudioPath : Option String) (s : UIState) : UIState :=
  let s1 := if !wasRecordingAudio || !hasDevices then setProcessingMode none s else s
  if uploadedAudioPath = some "MICROPHONE" then
    if !wasRecordingAudio then setUploadedAudioPath "" s1 else s1
  else s1

/-- The recording-stop path of `handleRecordingToggle` (taken when
recording is toggled off). Selector values are read from the state at
entry; `micOk` and `videoOk` are the outcomes of the stop-microphone
and stop-video-analytics calls. -/
def handleRecordingStop (micOk videoOk : Bool) (s : UIState) : UIState :=
  let hasDevices := s.hasAudioDevices
  let hasVideoCap := hasVideoCapability s
  let sessionId := s.sessionId
  let audioPath := s.uploadedAudioPath
  let audioStatus0 := s.audioStatus
  let videoActive0 := s.videoAnalyticsActive
  let s1 := setJustStoppedRecording true (setIsRecording false s)
  let wasRecordingAudio := hasDevices && decide (audioPath = some "MICROPHONE")
  if (sessionId.isSome && wasRecordingAudio) && !micOk then
    stopOuterCatch hasDevices hasVideoCap s1
  else
    let s2 :=
      if sessionId.isSome && wasRecordingAudio then s1
      else if !hasDevices then setAudioStatus .noDevices s1
      else if audioStatus0 = .recording then
        setAudioStatus (if hasDevices then .ready else .noDevices) s1
      else s1
    let s3 := stopVideoSection videoOk hasVideoCap sessionId videoActive0 s2
    stopModeSection wasRecordingAudio hasDevices audioPath s3

/-- Render-time inputs of the Header component that feed the record
control: the ui slice state plus the transcript status and the mindmap
slice fields read by the disabled-derivation. -/
structure HeaderInputs where
  ui : UIState
  transcriptStatus : String
  mindmapIsLoading : Bool
  mindmapFinalText : String
deriving DecidableEq, Repr

/-- Header derivation `isRecordingDisabled`. -/
def isRecordingDisabled (h : HeaderInputs) : Bool :=
  if h.ui.isRecording then false
  else
    h.ui.audioDevicesLoading
    || (!h.ui.hasAudioDevices && !hasVideoCapability h.ui)
    || h.ui.aiProcessing
    || (h.transcriptStatus == "streaming")
    || h.ui.summaryLoading
    || (h.ui.mindmapEnabled &&
        (h.ui.mindmapLoading || h.mindmapIsLoading || h.mindmapFinalText == ""))
    || h.ui.videoAnalyticsStopping
    || h.ui.videoAnalyticsLoading

/-- One per-pipeline result returned by the video-analytics start call. -/
structure PipelineResult where
  pipeline_name : String
  ok : Bool
  hls_stream : String
deriving DecidableEq, Repr

/-- Local state of the upload modal (error slot, notification line,
loading flag). -/
structure UploadModalState where
  error : Option String
  notification : String
  loading : Bool
deriving DecidableEq, Repr

/-- `constructFilePath`: prefix the file name with the base directory,
normalizing a trailing path separator. -/
def constructFilePath (baseDirectory fileName : String) : String :=
  let normalized :=
    if baseDirectory.endsWith "\\" then baseDirectory else baseDirectory ++ "\\"
  normalized ++ fileName

/-- `getProcessingNotification` from the upload modal. -/
def getProcessingNotification (hasAudio hasVideo : Bool) : String :=
  if hasAudio && hasVideo then "Starting video analytics and transcription..."
  else if hasAudio && !hasVideo then "Starting transcription..."
  else if !hasAudio && hasVideo then "Starting video analytics..."
  else "Starting processing..."

/-- `getSuccessNotification` from the upload modal. -/
def getSuccessNotification (hasAudio hasVideo videoStarted : Bool) : String :=
  let audioSuccess := hasAudio
  let videoSuccess := hasVideo && videoStarted
  if audioSuccess && videoSuccess then
    "Transcription and video analytics started successfully."
  else if (audioSuccess && !videoSuccess) && hasVideo then
    "Transcription started successfully. Video analytics failed to start."
  else if audioSuccess && !hasVideo then
    "Transcription started successfully."
  else if !audioSuccess && videoSuccess then
    "Video analytics started successfully."
  else if (!audioSuccess && !videoSuccess) && hasVideo then
    "Failed to start video analytics."
  else
    "No valid processing started."

/-- A pipeline result counts as a successful stream when its status is
success and it carries a non-empty stream handle. -/
def pipelineSuccess (r : PipelineResult) : Bool :=
  r.ok && r.hls_stream != ""

/-- Per-result stream-handle dispatch of the upload modal's video start. -/
def applyPipelineResult (s : UIState) (r : PipelineResult) : UIState :=
  if pipelineSuccess r then
    if r.pipeline_name = "front" then setFrontCameraStream r.hls_stream s
    else if r.pipeline_name = "back" then setBackCameraStream r.hls_stream s
    else if r.pipeline_name = "content" then setBoardCameraStream r.hls_stream s
    else s
  else s

/-- `startVideoAnalyticsWithSession` of the upload modal: start the
requested pipelines; `results` is the backend response (`none` models a
thrown call). Returns the updated state and whether any stream came up. -/
def startVideoAnalyticsWithSession (results : Option (List PipelineResult))
    (pipelines : List (String × String)) (s : UIState) : UIState × Bool :=
  if pipelines.length = 0 then
    (setVideoStatus .noConfig
      (setVideoAnalyticsActive false (setVideoAnalyticsLoading false s)), false)
  else
    let s1 := setVideoStatus .starting (setVideoAnalyticsLoading true (startStream s))
    match results with
    | none =>
      (setVideoStatus .failed
        (setVideoAnalyticsActive false (setVideoAnalyticsLoading false s1)), false)
    | some rs =>
      let s2 := rs.foldl applyPipelineResult s1
      let hasSuccessfulStreams := rs.any pipelineSuccess
      let s3 :=
        if hasSuccessfulStreams then
          setVideoStatus .streaming
            (setVideoAnalyticsActive true (setActiveStream (some .all) s2))
        else setVideoStatus .failed s2
      (setVideoAnalyticsLoading false s3, hasSuccessfulStreams)

/-- Result of one submission of the upload form: the modal state, the
ui slice state, and which backend effects were initiated. -/
structure UploadOutcome where
  modal : UploadModalState
  ui : UIState
  sessionCreated : Bool
  monitoringStarted : Bool
  pipelinesStarted : List (String × String)
  transcriptStarted : Bool
deriving DecidableEq, Repr

/-- `handleApply` of the upload modal. The four file arguments are the
selected file names; `sessionResult`, `monitoringOk`, `uploadResult`
and `videoCall` are the backend call outcomes (`none` models a thrown
call). -/
def handleApply (audioFile frontFile rearFile boardFile : Option String)
    (baseDirectory : String) (sessionResult : Option String) (monitoringOk : Bool)
    (uploadResult : Option String) (videoCall : Option (List PipelineResult))
    (modal : UploadModalState) (s : UIState) : UploadOutcome :=
  let hasAudioFile := audioFile.isSome
  let hasVideoFiles := frontFile.isSome || rearFile.isSome || boardFile.isSome
  if !hasAudioFile && !hasVideoFiles then
    { modal := { modal with error := some "At least one file (audio or video) is required." }
      ui := s
      sessionCreated := false
      monitoringStarted := false
      pipelinesStarted := []
      transcriptStarted := false }
  else
    let modal1 := { modal with
      notification := "Starting processing..."
      error := none
      loading := true }
    let s1 := startProcessing (resetFlow s)
    let s2 := if hasAudioFile then setAudioStatus .processing s1
      else setAudioStatus .noDevices s1
    match sessionResult with
    | none =>
      { modal := { modal1 with
          error := some "Failed during processing. Please try again."
          notification := ""
          loading := false }
        ui := processingFailed s2
        sessionCreated := false
        monitoringStarted := false
        pipelinesStarted := []
        transcriptStarted := false }
    | some sid =>
      let s3 := setSessionId (some sid) s2
      if hasAudioFile && uploadResult.isNone then
        { modal := { modal1 with
            error := some "Failed during processing. Please try again."
            notification := ""
            loading := false }
          ui := processingFailed s3
          sessionCreated := true
          monitoringStarted := monitoringOk
          pipelinesStarted := []
          transcriptStarted := false }
      else
        let audioPath := if hasAudioFile then uploadResult.getD "" else ""
        let s4 :=
          if hasAudioFile then
            setProcessingMode (some .audio) (setUploadedAudioPath audioPath s3)
          else setProcessingMode (some .videoOnly) s3
        let frontFullPath :=
          match frontFile with
          | some n => constructFilePath baseDirectory n
          | none => ""
        let rearFullPath :=
          match rearFile with
          | some n => constructFilePath baseDirectory n
          | none => ""
        let boardFullPath :=
          match boardFile with
          | some n => constructFilePath baseDirectory n
          | none => ""
        let allPipelines :=
          [("front", frontFullPath), ("back", rearFullPath), ("content", boardFullPath)]
        let validPipelines :=
          allPipelines.filter (fun p => p.2 != "" && (jsTrim p.2) != "")
        let hasValidVideo := 0 < validPipelines.length
        let s5 := setHasUploadedVideoFiles hasValidVideo s4
        let s6 := if hasValidVideo then setVideoStatus .starting s5
          else setVideoStatus .noConfig s5
        let vres := if hasValidVideo
          then startVideoAnalyticsWithSession videoCall validPipelines s6
          else (s6, false)
        let s7 := if hasValidVideo && !vres.2 then setVideoStatus .failed vres.1
          else vres.1
        { modal := { modal1 with
            notification := getSuccessNotification hasAudioFile hasValidVideo vres.2
            loading := false }
          ui := s7
          sessionCreated := true
          monitoringStarted := monitoringOk
          pipelinesStarted := if hasValidVideo then validPipelines else []
          transcriptStarted := hasAudioFile && audioPath != "" }

/-- C4: submitting the upload form with no audio file and no camera
file sets the inline error and returns before any other effect: the ui
state is unchanged, no session is created, no monitoring is started,
and no pipeline or transcript operation is initiated. -/
theorem c4_empty_upload_rejected (baseDirectory : String)
    (sessionResult : Option String) (monitoringOk : Bool)
    (uploadResult : Option String) (videoCall : Option (List PipelineResult))
    (modal : UploadModalState) (s : UIState) :
    handleApply none none none none baseDirectory sessionResult monitoringOk
        uploadResult videoCall modal s
      = { modal := { modal with
            error := some "At least one file (audio or video) is required." }
          ui := s
          sessionCreated := false
          monitoringStarted := false
          pipelinesStarted := []
          transcriptStarted := false } := rfl

/-- C9: `resetFlow` preserves exactly the device/camera configuration
fields (hasAudioDevices, audioDevicesLoading, frontCamera, backCamera,
boardCamera); every other field returns to its initial value, with the
audio and video statuses re-derived from the preserved configuration. -/
theorem c9_resetFlow_frame (s : UIState) :
    (resetFlow s).hasAudioDevices = s.hasAudioDevices
    ∧ (resetFlow s).audioDevicesLoading = s.audioDevicesLoading
    ∧ (resetFlow s).frontCamera = s.frontCamera
    ∧ (resetFlow s).backCamera = s.backCamera
    ∧ (resetFlow s).boardCamera = s.boardCamera
    ∧ (resetFlow s).aiProcessing = initialState.aiProcessing
    ∧ (resetFlow s).summaryEnabled = initialState.summaryEnabled
    ∧ (resetFlow s).summaryLoading = initialState.summaryLoading
    ∧ (resetFlow s).mindmapEnabled = initialState.mindmapEnabled
    ∧ (resetFlow s).mindmapLoading = initialState.mindmapLoading
    ∧ (resetFlow s).activeTab = initialState.activeTab
    ∧ (resetFlow s).autoSwitched = initialState.autoSwitched
    ∧ (resetFlow s).autoSwitchedToMindmap = initialState.autoSwitchedToMindmap
    ∧ (resetFlow s).sessionId = initialState.sessionId
    ∧ (resetFlow s).videoSessionId = initialState.videoSessionId
    ∧ (resetFlow s).uploadedAudioPath = initialState.uploadedAudioPath
    ∧ (resetFlow s).shouldStartSummary = initialState.shouldStartSummary
    ∧ (resetFlow s).shouldStartMindmap = initialState.shouldStartMindmap
    ∧ (resetFlow s).projectLocation = initialState.projectLocation
    ∧ (resetFlow s).frontCameraStream = initialState.frontCameraStream
    ∧ (resetFlow s).backCameraStream = initialState.backCameraStream
    ∧ (resetFlow s).boardCameraStream = initialState.boardCameraStream
    ∧ (resetFlow s).activeStream = initialState.activeStream
    ∧ (resetFlow s).videoAnalyticsLoading = initialState.videoAnalyticsLoading
    ∧ (resetFlow s).videoAnalyticsActive = initialState.videoAnalyticsActive
    ∧ (resetFlow s).processingMode = initialState.processingMode
    ∧ (resetFlow s).isRecording = initialState.isRecording
    ∧ (resetFlow s).justStoppedRecording = initialState.justStoppedRecording
    ∧ (resetFlow s).videoAnalyticsStopping = initialState.videoAnalyticsStopping
    ∧ (resetFlow s).hasUploadedVideoFiles = initialState.hasUploadedVideoFiles
    ∧ (resetFlow s).audioStatus
        = (if s.audioDevicesLoading then .checking
           else if s.hasAudioDevices then .ready else .noDevices)
    ∧ (resetFlow s).videoStatus
        = (if jsTrim s.frontCamera ≠ "" ∨ jsTrim s.backCamera ≠ "" ∨ jsTrim s.boardCamera ≠ ""
           then .ready else .noConfig) := by
  and_intros <;> rfl

/-- C5: with nothing to record (no audio devices and no video
capability) and recording not in progress the record control is
disabled; with either a microphone or a video capability present it is
enabled, absent the other in-flight disabling conditions. -/
theorem c5_recording_disabled_invariant (h : HeaderInputs) :
    (h.ui.isRecording = false → h.ui.hasAudioDevices = false →
      hasVideoCapability h.ui = false → isRecordingDisabled h = true)
    ∧ ((h.ui.hasAudioDevices = true ∨ hasVideoCapability h.ui = true) →
      h.ui.audioDevicesLoading = false → h.ui.aiProcessing = false →
      h.transcriptStatus ≠ "streaming" → h.ui.summaryLoading = false →
      (h.ui.mindmapEnabled = false ∨
        (h.ui.mindmapLoading = false ∧ h.mindmapIsLoading = false
          ∧ h.mindmapFinalText ≠ "")) →
      h.ui.videoAnalyticsStopping = false → h.ui.videoAnalyticsLoading = false →
      isRecordingDisabled h = false) := by
  constructor
  · intro h1 h2 h3
    simp [isRecordingDisabled, h1, h2, h3]
  · intro hcap h1 h2 h3 h4 h5 h6 h7
    by_cases hrec : h.ui.isRecording
    · simp [isRecordingDisabled, hrec]
    · have hts : (h.transcriptStatus == "streaming") = false := by
        simpa using h3
      have hmm : (h.ui.mindmapEnabled &&
          (h.ui.mindmapLoading || h.mindmapIsLoading || h.mindmapFinalText == ""))
            = false := by
        rcases h5 with h5 | ⟨ha, hb, hc⟩
        · simp [h5]
        · simp [ha, hb, hc]
      have hnothing : (!h.ui.hasAudioDevices && !hasVideoCapability h.ui) = false := by
        rcases hcap with hcap | hcap <;> simp [hcap]
      simp [isRecordingDisabled, hrec, h1, h2, h4, h6, h7, hts, hmm, hnothing]

theorem c5_recording_disabled_invariant_witness :
    isRecordingDisabled
        ⟨{ initialState with hasAudioDevices := false }, "idle", false, ""⟩ = true
    ∧ isRecordingDisabled ⟨initialState, "idle", false, ""⟩ = false := by
  constructor
  · exact (c5_recording_disabled_invariant
      ⟨{ initialState with hasAudioDevices := false }, "idle", false, ""⟩).1
        rfl rfl (by decide)
  · exact (c5_recording_disabled_invariant ⟨initialState, "idle", false, ""⟩).2
      (Or.inl rfl) rfl rfl (by decide) rfl (Or.inl rfl) rfl rfl


lemma setVideoStatus_audioStatus (v : VideoStatus) (s : UIState) :
    (setVideoStatus v s).audioStatus = s.audioStatus := rfl

lemma setAudioStatus_audioStatus (a : AudioStatus) (s : UIState) :
    (setAudioStatus a s).audioStatus = a := rfl

lemma setFrontCameraStream_audioStatus (v : String) (s : UIState) :
    (setFrontCameraStream v s).audioStatus = s.audioStatus := rfl

lemma setBackCameraStream_audioStatus (v : String) (s : UIState) :
    (setBackCameraStream v s).audioStatus = s.audioStatus := rfl

lemma setBoardCameraStream_audioStatus (v : String) (s : UIState) :
    (setBoardCameraStream v s).audioStatus = s.audioStatus := rfl

lemma setActiveStream_audioStatus (v : Option ActiveStream) (s : UIState) :
    (setActiveStream v s).audioStatus = s.audioStatus := rfl

lemma setProcessingMode_audioStatus (m : Option ProcessingMode) (s : UIState) :
    (setProcessingMode m s).audioStatus = s.audioStatus := rfl

lemma setJustStoppedRecording_audioStatus (b : Bool) (s : UIState) :
    (setJustStoppedRecording b s).audioStatus = s.audioStatus := rfl

lemma setIsRecording_false_audioStatus (s : UIState) :
    (setIsRecording false s).audioStatus = s.audioStatus := rfl

lemma setVideoAnalyticsStopping_audioStatus (b : Bool) (s : UIState) :
    (setVideoAnalyticsStopping b s).audioStatus = s.audioStatus := by
  cases b <;> rfl

lemma setVideoAnalyticsActive_audioStatus (b : Bool) (s : UIState) :
    (setVideoAnalyticsActive b s).audioStatus = s.audioStatus := by
  cases b <;> cases hv : s.videoAnalyticsLoading <;>
    simp [setVideoAnalyticsActive, hv]

lemma setUploadedAudioPath_empty_audioStatus (s : UIState) :
    (setUploadedAudioPath "" s).audioStatus = s.audioStatus := by
  unfold setUploadedAudioPath
  split_ifs with h1 h2
  · exact absurd h1 (by decide)
  · exact absurd h2 (by decide)
  · rfl

lemma stopVideoSection_audioStatus (videoOk hasVideoCap : Bool)
    (sessionId : Option String) (videoActive : Bool) (s : UIState) :
    (stopVideoSection videoOk hasVideoCap sessionId videoActive s).audioStatus
      = s.audioStatus := by
  unfold stopVideoSection
  split_ifs <;>
    simp only [setVideoAnalyticsStopping_audioStatus, setVideoStatus_audioStatus,
      setVideoAnalyticsActive_audioStatus, setActiveStream_audioStatus,
      setBoardCameraStream_audioStatus, setBackCameraStream_audioStatus,
      setFrontCameraStream_audioStatus]

lemma stopModeSection_audioStatus (w hd : Bool) (p : Option String) (s : UIState) :
    (stopModeSection w hd p s).audioStatus = s.audioStatus := by
  unfold stopModeSection
  split_ifs <;>
    simp only [setUploadedAudioPath_empty_audioStatus, setProcessingMode_audioStatus]

/-- A concrete stop state whose uploaded audio path is not the
microphone sentinel: an upload-originated audio path with no microphone
present and audio mid-processing. -/
def c3CexState : UIState :=
  { initialState with
    isRecording := true
    hasAudioDevices := false
    audioStatus := .processing
    uploadedAudioPath := some "/uploads/lecture.wav"
    sessionId := some "session-1" }

/-- C3 counterexample: toggling recording off in a state whose uploaded
audio path is not the microphone sentinel does NOT leave the audio
status at its current value — the stop path resets it to no-devices. -/
theorem c3_stop_counterexample :
    c3CexState.uploadedAudioPath ≠ some "MICROPHONE"
    ∧ c3CexState.audioStatus = AudioStatus.processing
    ∧ (handleRecordingStop true true c3CexState).audioStatus = AudioStatus.noDevices := by
  refine ⟨by decide, rfl, ?_⟩
  decide

/-- C3 amended: on the exception-free stop path, when no microphone is
present the audio status is set to no-devices regardless of the audio
path; a microphone-originated session (microphone present, path equal
to the sentinel, session id present) keeps its audio status unchanged
so that background processing may continue; with a microphone present
and a non-microphone path the status changes only when it was
recording, to ready, and is otherwise left at its current value. -/
theorem c3_stop_audio_status (s : UIState) (videoOk : Bool) :
    (s.hasAudioDevices = false →
      (handleRecordingStop true videoOk s).audioStatus = .noDevices)
    ∧ (s.hasAudioDevices = true → s.uploadedAudioPath = some "MICROPHONE" →
        s.sessionId.isSome = true →
        (handleRecordingStop true videoOk s).audioStatus = s.audioStatus)
    ∧ (s.hasAudioDevices = true → s.uploadedAudioPath ≠ some "MICROPHONE" →
        s.audioStatus = .recording →
        (handleRecordingStop true videoOk s).audioStatus = .ready)
    ∧ (s.hasAudioDevices = true → s.uploadedAudioPath ≠ some "MICROPHONE" →
        s.audioStatus ≠ .recording →
        (handleRecordingStop true videoOk s).audioStatus = s.audioStatus) := by
  refine ⟨?_, ?_, ?_, ?_⟩
  · intro hdev
    simp [handleRecordingStop, hdev, stopModeSection_audioStatus,
      stopVideoSection_audioStatus, setAudioStatus_audioStatus,
      setJustStoppedRecording_audioStatus, setIsRecording_false_audioStatus]
  · intro hdev hmic hsess
    simp [handleRecordingStop, hdev, hmic, hsess, stopModeSection_audioStatus,
      stopVideoSection_audioStatus, setAudioStatus_audioStatus,
      setJustStoppedRecording_audioStatus, setIsRecording_false_audioStatus]
  · intro hdev hmic hrec
    have hm : decide (s.uploadedAudioPath = some "MICROPHONE") = false :=
      decide_eq_false hmic
    simp [handleRecordingStop, hdev, hm, hrec, stopModeSection_audioStatus,
      stopVideoSection_audioStatus, setAudioStatus_audioStatus,
      setJustStoppedRecording_audioStatus, setIsRecording_false_audioStatus]
  · intro hdev hmic hrec
    have hm : decide (s.uploadedAudioPath = some "MICROPHONE") = false :=
      decide_eq_false hmic
    simp [handleRecordingStop, hdev, hm, hrec, stopModeSection_audioStatus,
      stopVideoSection_audioStatus, setAudioStatus_audioStatus,
      setJustStoppedRecording_audioStatus, setIsRecording_false_audioStatus]

theorem c3_stop_audio_status_witness :
    (handleRecordingStop true true c3CexState).audioStatus = AudioStatus.noDevices
    ∧ (handleRecordingStop true true
        { initialState with
          isRecording := true
          hasAudioDevices := true
          audioStatus := .recording
          uploadedAudioPath := some "MICROPHONE"
          sessionId := some "session-2" }).audioStatus = AudioStatus.recording := by
  constructor
  · exact (c3_stop_audio_status c3CexState true).1 rfl
  · exact (c3_stop_audio_status
      { initialState with
        isRecording := true
        hasAudioDevices := true
        audioStatus := .recording
        uploadedAudioPath := some "MICROPHONE"
        sessionId := some "session-2" } true).2.1 rfl rfl rfl

/-!
Part 3 embeds the environment-variable handling of the two bootstrap
scripts (`metro-ai-suite/smart-route-planning-agent/setup.sh` and
`metro-ai-suite/smart-traffic-intersection-agent/setup.sh`): the
colon-dash default expansion, the VLM GPU adjustment, and the registry
path composition. An environment variable is modelled as
`Option String` (`none` = unset).
-/

/-- Shell default expansion with the colon-dash operator: the default
is substituted when the variable is unset or set to the empty string. -/
def envOrDefault (d : String) : Option String → String
  | none => d
  | some v => if v = "" then d else v

/-- The LOG_LEVEL export of both bootstrap scripts: colon-dash
expansion with default INFO. -/
def exportLogLevel (env : Option String) : String :=
  envOrDefault "INFO" env

/-- C7 counterexample: a LOG_LEVEL that is set in the environment but
empty is overwritten with the default INFO, so the claim that any
already-set value is exported unchanged fails at the empty string. -/
theorem c7_set_empty_counterexample :
    exportLogLevel (some "") ≠ "" ∧ exportLogLevel (some "") = "INFO" := by
  decide

/-- C7 amended: any non-empty pre-set LOG_LEVEL value is exported
unchanged; the default INFO is applied exactly when the variable is
unset or set to the empty string (colon-dash semantics). -/
theorem c7_default_preservation :
    (∀ v : String, v ≠ "" → exportLogLevel (some v) = v)
    ∧ exportLogLevel none = "INFO"
    ∧ exportLogLevel (some "") = "INFO" := by
  refine ⟨?_, rfl, rfl⟩
  intro v hv
  simp [exportLogLevel, envOrDefault, hv]

theorem c7_default_preservation_witness :
    exportLogLevel (some "DEBUG") = "DEBUG" :=
  c7_default_preservation.1 "DEBUG" (by decide)

/-- VLM-related environment inputs of the intersection-agent script. -/
structure VlmEnv where
  workers : Option String
  device : Option String
  weightFormat : Option String
deriving DecidableEq, Repr

/-- VLM-related exported values after the script's defaulting and GPU
adjustment. -/
structure VlmSettings where
  workers : String
  device : String
  weightFormat : String
deriving DecidableEq, Repr

/-- The VLM configuration block of the intersection-agent bootstrap:
colon-dash defaults (device CPU, weight format int8, workers 1)
followed by the GPU adjustment forcing int4 and a single worker. -/
def vlmEnvSetup (e : VlmEnv) : VlmSettings :=
  let device := envOrDefault "CPU" e.device
  let weightFormat := envOrDefault "int8" e.weightFormat
  let workers := envOrDefault "1" e.workers
  if device = "GPU" then
    { workers := "1", device := device, weightFormat := "int4" }
  else
    { workers := workers, device := device, weightFormat := weightFormat }

/-- C6 counterexample: with VLM_WORKERS unset (and default device) the
intersection-agent script exports VLM_WORKERS as 1, not 4. -/
theorem c6_workers_default_counterexample :
    (vlmEnvSetup ⟨none, none, none⟩).workers = "1"
    ∧ (vlmEnvSetup ⟨none, none, none⟩).workers ≠ "4" := by
  decide

/-- C6 amended: when VLM_WORKERS is not set in the environment it is
exported with the default value 1; when the (defaulted) VLM_DEVICE is
GPU, VLM_WORKERS is forced to 1 and the compression weight format is
forced to int4. -/
theorem c6_vlm_defaults (e : VlmEnv) :
    (e.workers = none → (vlmEnvSetup e).workers = "1")
    ∧ (envOrDefault "CPU" e.device = "GPU" →
        (vlmEnvSetup e).workers = "1" ∧ (vlmEnvSetup e).weightFormat = "int4") := by
  constructor
  · intro hw
    simp only [vlmEnvSetup]
    by_cases hd : envOrDefault "CPU" e.device = "GPU"
    · rw [if_pos hd]
    · rw [if_neg hd]
      show envOrDefault "1" e.workers = "1"
      rw [hw]
      rfl
  · intro hd
    simp only [vlmEnvSetup]
    rw [if_pos hd]
    exact ⟨rfl, rfl⟩

theorem c6_vlm_defaults_witness :
    (vlmEnvSetup ⟨none, none, none⟩).workers = "1"
    ∧ (vlmEnvSetup ⟨none, some "GPU", none⟩).workers = "1"
    ∧ (vlmEnvSetup ⟨none, some "GPU", none⟩).weightFormat = "int4" := by
  refine ⟨(c6_vlm_defaults ⟨none, none, none⟩).1 rfl, ?_, ?_⟩
  · exact ((c6_vlm_defaults ⟨none, some "GPU", none⟩).2 (by decide)).1
  · exact ((c6_vlm_defaults ⟨none, some "GPU", none⟩).2 (by decide)).2

/-- Shortest-suffix slash removal: the shell parameter expansion that
strips at most one trailing slash from a value. -/
def trimOneSlash (l : List Char) : List Char :=
  if l.getLast? = some '/' then l.dropLast else l

/-- The REGISTRY composition of the route-planning bootstrap script:
combine the (one-slash-trimmed) registry url and project name with a
single separator and one trailing slash, per the script's four cases. -/
def mkRegistry (url name : List Char) : List Char :=
  if url ≠ [] ∧ name ≠ [] then
    trimOneSlash url ++ '/' :: (trimOneSlash name ++ ['/'])
  else if url ≠ [] then trimOneSlash url ++ ['/']
  else if name ≠ [] then trimOneSlash name ++ ['/']
  else []

/-- Whether a character sequence contains two adjacent path separators. -/
def hasDoubleSlash : List Char → Bool
  | a :: b :: rest => (a == '/' && b == '/') || hasDoubleSlash (b :: rest)
  | _ => false

lemma hasDoubleSlash_cons_cons (a b : Char) (rest : List Char) :
    hasDoubleSlash (a :: b :: rest)
      = ((a == '/' && b == '/') || hasDoubleSlash (b :: rest)) := rfl

lemma hasDD_append : ∀ (A B : List Char), hasDoubleSlash A = false →
    hasDoubleSlash B = false →
    (A.getLast? ≠ some '/' ∨ B.head? ≠ some '/') →
    hasDoubleSlash (A ++ B) = false := by
  intro A
  induction A with
  | nil => intro B _ hB _; simpa using hB
  | cons a t ih =>
    intro B hA hB h
    cases t with
    | nil =>
      cases B with
      | nil => rfl
      | cons b B' =>
        have hab : (a == '/' && b == '/') = false := by
          rcases h with h | h
          · have ha : ¬ a = '/' := by simpa using h
            simp [ha]
          · have hb : ¬ b = '/' := by simpa using h
            simp [hb]
        calc hasDoubleSlash ([a] ++ b :: B')
            = ((a == '/' && b == '/') || hasDoubleSlash (b :: B')) := rfl
          _ = false := by rw [hab, hB]; rfl
    | cons a2 t' =>
      rw [hasDoubleSlash_cons_cons] at hA
      obtain ⟨h1, h2⟩ := Bool.or_eq_false_iff.mp hA
      have h' : (a2 :: t').getLast? ≠ some '/' ∨ B.head? ≠ some '/' := by
        rcases h with h | h
        · left; rwa [List.getLast?_cons_cons] at h
        · right; exact h
      have hrec := ih B h2 hB h'
      calc hasDoubleSlash ((a :: a2 :: t') ++ B)
          = ((a == '/' && a2 == '/') || hasDoubleSlash ((a2 :: t') ++ B)) := rfl
        _ = false := by rw [h1, hrec]; rfl

lemma hasDD_dropLast : ∀ (l : List Char), hasDoubleSlash l = false →
    hasDoubleSlash l.dropLast = false := by
  intro l
  induction l with
  | nil => intro _; rfl
  | cons a t ih =>
    intro h
    cases t with
    | nil => rfl
    | cons b t' =>
      rw [hasDoubleSlash_cons_cons] at h
      obtain ⟨h1, h2⟩ := Bool.or_eq_false_iff.mp h
      have hrec := ih h2
      rw [List.dropLast_cons₂]
      cases t' with
      | nil => rfl
      | cons c t'' =>
        rw [List.dropLast_cons₂]
        rw [List.dropLast_cons₂] at hrec
        rw [hasDoubleSlash_cons_cons, h1, hrec]
        rfl

lemma hasDD_last_two : ∀ (l : List Char), l.dropLast.getLast? = some '/' →
    l.getLast? = some '/' → hasDoubleSlash l = true := by
  intro l
  induction l with
  | nil => intro h _; simp at h
  | cons a t ih =>
    intro h1 h2
    cases t with
    | nil => simp at h1
    | cons b t' =>
      cases t' with
      | nil =>
        simp at h1 h2
        subst h1; subst h2
        rfl
      | cons c t'' =>
        have h1' : (b :: c :: t'').dropLast.getLast? = some '/' := by
          have e : (b :: c :: t'').dropLast = b :: (c :: t'').dropLast :=
            List.dropLast_cons₂
          rw [List.dropLast_cons₂, e, List.getLast?_cons_cons] at h1
          rw [e]
          exact h1
        have h2' : (b :: c :: t'').getLast? = some '/' := by
          rwa [List.getLast?_cons_cons] at h2
        have hrec := ih h1' h2'
        rw [hasDoubleSlash_cons_cons, hrec]
        simp

lemma trimOneSlash_noDD (l : List Char) (h : hasDoubleSlash l = false) :
    hasDoubleSlash (trimOneSlash l) = false := by
  unfold trimOneSlash
  by_cases hl : l.getLast? = some '/'
  · rw [if_pos hl]; exact hasDD_dropLast l h
  · rw [if_neg hl]; exact h

lemma trimOneSlash_getLast? (l : List Char) (h : hasDoubleSlash l = false) :
    trimOneSlash l = [] ∨ (trimOneSlash l).getLast? ≠ some '/' := by
  unfold trimOneSlash
  by_cases hl : l.getLast? = some '/'
  · rw [if_pos hl]
    by_cases hd : l.dropLast.getLast? = some '/'
    · exact absurd (hasDD_last_two l hd hl) (by rw [h]; simp)
    · right; exact hd
  · rw [if_neg hl]
    right; exact hl

lemma trimOneSlash_ne_nil : ∀ (l : List Char), l ≠ [] →
    l.head? ≠ some '/' → trimOneSlash l ≠ [] := by
  intro l hne hh
  unfold trimOneSlash
  cases l with
  | nil => exact absurd rfl hne
  | cons a t =>
    cases t with
    | nil =>
      have ha : ¬ a = '/' := by simpa using hh
      have hl : ¬ [a].getLast? = some '/' := by simpa using ha
      rw [if_neg hl]
      simp
    | cons b t' =>
      by_cases hl : (a :: b :: t').getLast? = some '/'
      · rw [if_pos hl, List.dropLast_cons₂]
        simp
      · rw [if_neg hl]
        simp

lemma trimOneSlash_head? (l : List Char) (hne : trimOneSlash l ≠ []) :
    (trimOneSlash l).head? = l.head? := by
  unfold trimOneSlash at hne ⊢
  by_cases hl : l.getLast? = some '/'
  · rw [if_pos hl] at hne ⊢
    cases l with
    | nil => rfl
    | cons a t =>
      cases t with
      | nil => simp at hne
      | cons b t' => rw [List.dropLast_cons₂]; rfl
  · rw [if_neg hl]

/-- C8 counterexample: with a doubly slash-terminated REGISTRY_URL the
shell expansion strips only one slash, so the exported REGISTRY does
contain duplicate path separators and differs from the fully trimmed
composition. -/
theorem c8_trailing_double_slash_counterexample :
    hasDoubleSlash (mkRegistry ("intel//".data) ("proj".data)) = true
    ∧ mkRegistry ("intel//".data) ("proj".data) = "intel//proj/".data
    ∧ mkRegistry ("intel//".data) ("proj".data) ≠ "intel/proj/".data := by
  decide

/-- C8 amended: the composition strips at most ONE trailing slash from
each component; for inputs free of adjacent duplicate separators whose
project name does not start with a slash, the exported REGISTRY
contains no duplicate path separators, and when both components are
non-empty it equals trimmed url, one slash, trimmed name, one trailing
slash. -/
theorem c8_registry_composition (url name : List Char)
    (hu : hasDoubleSlash url = false) (hn : hasDoubleSlash name = false)
    (hh : name.head? ≠ some '/') :
    hasDoubleSlash (mkRegistry url name) = false
    ∧ (url ≠ [] → name ≠ [] →
        mkRegistry url name
          = trimOneSlash url ++ '/' :: (trimOneSlash name ++ ['/'])) := by
  constructor
  · unfold mkRegistry
    by_cases h1 : url ≠ [] ∧ name ≠ []
    · rw [if_pos h1]
      have hA := trimOneSlash_noDD url hu
      have hB := trimOneSlash_noDD name hn
      have hBne : trimOneSlash name ≠ [] := trimOneSlash_ne_nil name h1.2 hh
      have hBhead : (trimOneSlash name).head? ≠ some '/' := by
        rw [trimOneSlash_head? name hBne]; exact hh
      have hBlast : (trimOneSlash name).getLast? ≠ some '/' := by
        rcases trimOneSlash_getLast? name hn with h | h
        · exact absurd h hBne
        · exact h
      have hBslash : hasDoubleSlash (trimOneSlash name ++ ['/']) = false :=
        hasDD_append _ _ hB rfl (Or.inl hBlast)
      obtain ⟨b0, Brest, hBeq⟩ : ∃ b0 Brest, trimOneSlash name = b0 :: Brest := by
        cases hB' : trimOneSlash name with
        | nil => exact absurd hB' hBne
        | cons x xs => exact ⟨x, xs, rfl⟩
      have hb0 : ¬ b0 = '/' := by
        rw [hBeq] at hBhead; simpa using hBhead
      have hMid : hasDoubleSlash ('/' :: (trimOneSlash name ++ ['/'])) = false := by
        rw [hBeq]
        rw [hBeq, List.cons_append] at hBslash
        rw [List.cons_append, hasDoubleSlash_cons_cons]
        simp only [hBslash, Bool.or_false]
        simp [hb0]
      rcases trimOneSlash_getLast? url hu with hAnil | hAlast
      · rw [hAnil]
        simpa using hMid
      · exact hasDD_append _ _ hA hMid (Or.inl hAlast)
    · rw [if_neg h1]
      by_cases h2 : url ≠ []
      · rw [if_pos h2]
        have hA := trimOneSlash_noDD url hu
        rcases trimOneSlash_getLast? url hu with hAnil | hAlast
        · rw [hAnil]; rfl
        · exact hasDD_append _ _ hA rfl (Or.inl hAlast)
      · rw [if_neg h2]
        by_cases h3 : name ≠ []
        · rw [if_pos h3]
          have hB := trimOneSlash_noDD name hn
          rcases trimOneSlash_getLast? name hn with hBnil | hBlast
          · rw [hBnil]; rfl
          · exact hasDD_append _ _ hB rfl (Or.inl hBlast)
        · rw [if_neg h3]; rfl
  · intro h1 h2
    unfold mkRegistry
    rw [if_pos ⟨h1, h2⟩]

theorem c8_registry_composition_witness :
    hasDoubleSlash (mkRegistry ("intel/".data) ("edge/".data)) = false
    ∧ mkRegistry ("intel/".data) ("edge/".data) = "intel/edge/".data := by
  have h := c8_registry_composition ("intel/".data) ("edge/".data)
    (by decide) (by decide) (by decide)
  refine ⟨h.1, ?_⟩
  rw [h.2 (by decide) (by decide)]
  decide
